import Mathlib

/-!
Verification of the `solar-api` client library (files `src/lib.rs` and
`src/site.rs`): a shallow embedding of the data model and conversion layer,
with theorems checking the specification's claims.

Modelling conventions:
* Rust `f64` magnitudes are modelled as `ℚ` (the code only tags and rescales
  numbers, it performs no rounding-sensitive arithmetic).
* `uom::si::f64::Energy` stores joules canonically and `Power` stores watts,
  exactly as the `uom` crate does; `new_watt_hour`, `new_kilowatt` and
  `new_watt` are the `Energy::new::<watt_hour>`, `Power::new::<kilowatt>` and
  `Power::new::<watt>` constructors.
* `serde` failures and the `todo!` panic in the unit dispatch are modelled as
  `Except String` errors.
* `chrono` timestamps are modelled structurally (`Date`, `DateTime`); the
  timeline arithmetic of `NaiveDateTime + Duration` is modelled in seconds via
  `DateTime.toSecs`.
-/

namespace SolarApi

/-- Physical energy quantity; canonical magnitude is joules, as in the
`uom` crate backing `uom::si::f64::Energy`. -/
structure Energy where
  joules : ℚ
deriving DecidableEq, Repr

/-- Constructor `Energy::new::<watt_hour>`: one watt-hour is 3600 joules. -/
def Energy.new_watt_hour (x : ℚ) : Energy := ⟨3600 * x⟩

/-- Getter `energy.get::<watt_hour>()`. -/
def Energy.get_watt_hour (e : Energy) : ℚ := e.joules / 3600

/-- Physical power quantity; canonical magnitude is watts, as in the
`uom` crate backing `uom::si::f64::Power`. -/
structure Power where
  watts : ℚ
deriving DecidableEq, Repr

/-- Constructor `Power::new::<watt>`. -/
def Power.new_watt (x : ℚ) : Power := ⟨x⟩

/-- Constructor `Power::new::<kilowatt>`: one kilowatt is 1000 watts. -/
def Power.new_kilowatt (x : ℚ) : Power := ⟨1000 * x⟩

/-- Getter `power.get::<watt>()`. -/
def Power.get_watt (p : Power) : ℚ := p.watts

/-- Calendar date (`chrono::NaiveDate`), stored as plain components. -/
structure Date where
  year : ℕ
  month : ℕ
  day : ℕ
deriving DecidableEq, Repr

/-- Timestamp (`chrono::NaiveDateTime`), stored as plain components. -/
structure DateTime where
  year : ℕ
  month : ℕ
  day : ℕ
  hour : ℕ
  minute : ℕ
  second : ℕ
deriving DecidableEq, Repr

/-- ASCII decimal digit test on a character, in terms of code points. -/
def isDigitChar (c : Char) : Bool := 48 ≤ c.toNat && c.toNat ≤ 57

/-- Numeric value of an ASCII digit character. -/
def digitVal (c : Char) : ℕ := c.toNat - 48

/-- The ASCII digit character for a value below ten. -/
def digitChar (n : ℕ) : Char := Char.ofNat (48 + n)

/-- Gregorian leap-year rule, as used by `chrono`'s calendar validation. -/
def isLeapYear (y : ℕ) : Bool := y % 4 == 0 && (y % 100 != 0 || y % 400 == 0)

/-- Number of days in a month of the proleptic Gregorian calendar. -/
def daysInMonth (y m : ℕ) : ℕ :=
  if m = 2 then (if isLeapYear y then 29 else 28)
  else if m = 4 ∨ m = 6 ∨ m = 9 ∨ m = 11 then 30
  else 31

/-- Modelled from the spec: `chrono::NaiveDate::parse_from_str(s, "%Y-%m-%d")`
(the `chrono` crate is not part of `src/`). Per the spec the parse is exact:
a four-digit zero-padded year, `-`, two-digit month, `-`, two-digit day, with
in-range calendar components and no extra characters; any deviation fails. -/
def parse_date (s : String) : Option Date :=
  match s.data with
  | [y1, y2, y3, y4, c1, m1, m2, c2, d1, d2] =>
    if isDigitChar y1 && isDigitChar y2 && isDigitChar y3 && isDigitChar y4 &&
        c1 == '-' && isDigitChar m1 && isDigitChar m2 && c2 == '-' &&
        isDigitChar d1 && isDigitChar d2 then
      if 1 ≤ 10 * digitVal m1 + digitVal m2 && 10 * digitVal m1 + digitVal m2 ≤ 12 &&
          1 ≤ 10 * digitVal d1 + digitVal d2 &&
          10 * digitVal d1 + digitVal d2 ≤
            daysInMonth (1000 * digitVal y1 + 100 * digitVal y2 + 10 * digitVal y3 + digitVal y4)
              (10 * digitVal m1 + digitVal m2) then
        some ⟨1000 * digitVal y1 + 100 * digitVal y2 + 10 * digitVal y3 + digitVal y4,
          10 * digitVal m1 + digitVal m2, 10 * digitVal d1 + digitVal d2⟩
      else none
    else none
  | _ => none

/-- Modelled from the spec:
`chrono::NaiveDateTime::parse_from_str(s, "%Y-%m-%d %H:%M:%S")` (the `chrono`
crate is not part of `src/`). Exact format, in-range components, no extra
characters; any deviation fails. -/
def parse_date_time (s : String) : Option DateTime :=
  match s.data with
  | [y1, y2, y3, y4, c1, m1, m2, c2, d1, d2, c3, h1, h2, c4, i1, i2, c5, s1, s2] =>
    if isDigitChar y1 && isDigitChar y2 && isDigitChar y3 && isDigitChar y4 &&
        c1 == '-' && isDigitChar m1 && isDigitChar m2 && c2 == '-' &&
        isDigitChar d1 && isDigitChar d2 && c3 == ' ' &&
        isDigitChar h1 && isDigitChar h2 && c4 == ':' &&
        isDigitChar i1 && isDigitChar i2 && c5 == ':' &&
        isDigitChar s1 && isDigitChar s2 then
      if 1 ≤ 10 * digitVal m1 + digitVal m2 && 10 * digitVal m1 + digitVal m2 ≤ 12 &&
          1 ≤ 10 * digitVal d1 + digitVal d2 &&
          10 * digitVal d1 + digitVal d2 ≤
            daysInMonth (1000 * digitVal y1 + 100 * digitVal y2 + 10 * digitVal y3 + digitVal y4)
              (10 * digitVal m1 + digitVal m2) &&
          10 * digitVal h1 + digitVal h2 ≤ 23 && 10 * digitVal i1 + digitVal i2 ≤ 59 &&
          10 * digitVal s1 + digitVal s2 ≤ 59 then
        some ⟨1000 * digitVal y1 + 100 * digitVal y2 + 10 * digitVal y3 + digitVal y4,
          10 * digitVal m1 + digitVal m2, 10 * digitVal d1 + digitVal d2,
          10 * digitVal h1 + digitVal h2, 10 * digitVal i1 + digitVal i2,
          10 * digitVal s1 + digitVal s2⟩
      else none
    else none
  | _ => none

/-- Two-digit zero-padded decimal rendering (as characters). -/
def pad2 (n : ℕ) : List Char := [digitChar (n / 10), digitChar (n % 10)]

/-- Four-digit zero-padded decimal rendering (as characters). -/
def pad4 (n : ℕ) : List Char :=
  [digitChar (n / 1000), digitChar (n / 100 % 10), digitChar (n / 10 % 10), digitChar (n % 10)]

/-- Modelled from the spec: `date.format("%Y-%m-%d").to_string()` of `chrono`
for in-range dates — the zero-padded `YYYY-MM-DD` rendering. -/
def renderDate (d : Date) : String :=
  ⟨pad4 d.year ++ '-' :: pad2 d.month ++ '-' :: pad2 d.day⟩

/-- Modelled from the spec: the `%Y-%m-%d %H:%M:%S` rendering of `chrono` for
in-range timestamps. -/
def renderDateTime (dt : DateTime) : String :=
  ⟨pad4 dt.year ++ '-' :: pad2 dt.month ++ '-' :: pad2 dt.day ++
    ' ' :: pad2 dt.hour ++ ':' :: pad2 dt.minute ++ ':' :: pad2 dt.second⟩

lemma digitVal_lt_ten {c : Char} (hc : isDigitChar c = true) : digitVal c < 10 := by
  simp only [isDigitChar, Bool.and_eq_true, decide_eq_true_eq] at hc
  unfold digitVal
  omega

lemma digitChar_digitVal {c : Char} (hc : isDigitChar c = true) :
    digitChar (digitVal c) = c := by
  simp only [isDigitChar, Bool.and_eq_true, decide_eq_true_eq] at hc
  unfold digitChar digitVal
  have h : 48 + (c.toNat - 48) = c.toNat := by omega
  rw [h, Char.ofNat_toNat]

lemma isDigitChar_digitChar {n : ℕ} (hn : n < 10) : isDigitChar (digitChar n) = true := by
  interval_cases n <;> decide

lemma digitVal_digitChar {n : ℕ} (hn : n < 10) : digitVal (digitChar n) = n := by
  interval_cases n <;> decide

lemma pad2_digits {a b : Char} (ha : isDigitChar a = true) (hb : isDigitChar b = true) :
    pad2 (10 * digitVal a + digitVal b) = [a, b] := by
  have h1 := digitVal_lt_ten ha
  have h2 := digitVal_lt_ten hb
  unfold pad2
  have e1 : (10 * digitVal a + digitVal b) / 10 = digitVal a := by omega
  have e2 : (10 * digitVal a + digitVal b) % 10 = digitVal b := by omega
  rw [e1, e2, digitChar_digitVal ha, digitChar_digitVal hb]

lemma pad4_digits {a b c d : Char} (ha : isDigitChar a = true) (hb : isDigitChar b = true)
    (hc : isDigitChar c = true) (hd : isDigitChar d = true) :
    pad4 (1000 * digitVal a + 100 * digitVal b + 10 * digitVal c + digitVal d) =
      [a, b, c, d] := by
  have h1 := digitVal_lt_ten ha
  have h2 := digitVal_lt_ten hb
  have h3 := digitVal_lt_ten hc
  have h4 := digitVal_lt_ten hd
  unfold pad4
  have e1 : (1000 * digitVal a + 100 * digitVal b + 10 * digitVal c + digitVal d) / 1000
      = digitVal a := by omega
  have e2 : (1000 * digitVal a + 100 * digitVal b + 10 * digitVal c + digitVal d) / 100 % 10
      = digitVal b := by omega
  have e3 : (1000 * digitVal a + 100 * digitVal b + 10 * digitVal c + digitVal d) / 10 % 10
      = digitVal c := by omega
  have e4 : (1000 * digitVal a + 100 * digitVal b + 10 * digitVal c + digitVal d) % 10
      = digitVal d := by omega
  rw [e1, e2, e3, e4, digitChar_digitVal ha, digitChar_digitVal hb, digitChar_digitVal hc,
    digitChar_digitVal hd]

lemma daysInMonth_le_31 (y m : ℕ) : daysInMonth y m ≤ 31 := by
  unfold daysInMonth
  split_ifs <;> omega

lemma parse_date_render {y m d : ℕ} (hy : y ≤ 9999) (hm1 : 1 ≤ m) (hm2 : m ≤ 12)
    (hd1 : 1 ≤ d) (hd2 : d ≤ daysInMonth y m) :
    parse_date (renderDate ⟨y, m, d⟩) = some ⟨y, m, d⟩ := by
  have hdm := daysInMonth_le_31 y m
  have hy1 : y / 1000 < 10 := by omega
  have hy2 : y / 100 % 10 < 10 := by omega
  have hy3 : y / 10 % 10 < 10 := by omega
  have hy4 : y % 10 < 10 := by omega
  have hm1' : m / 10 < 10 := by omega
  have hm2' : m % 10 < 10 := by omega
  have hd1' : d / 10 < 10 := by omega
  have hd2' : d % 10 < 10 := by omega
  simp only [renderDate, pad4, pad2, List.cons_append, List.nil_append]
  simp only [parse_date]
  simp only [isDigitChar_digitChar hy1, isDigitChar_digitChar hy2, isDigitChar_digitChar hy3,
    isDigitChar_digitChar hy4, isDigitChar_digitChar hm1', isDigitChar_digitChar hm2',
    isDigitChar_digitChar hd1', isDigitChar_digitChar hd2', Bool.true_and, Bool.and_true,
    beq_self_eq_true]
  simp only [digitVal_digitChar hy1, digitVal_digitChar hy2, digitVal_digitChar hy3,
    digitVal_digitChar hy4, digitVal_digitChar hm1', digitVal_digitChar hm2',
    digitVal_digitChar hd1', digitVal_digitChar hd2']
  have ey : 1000 * (y / 1000) + 100 * (y / 100 % 10) + 10 * (y / 10 % 10) + y % 10 = y := by
    omega
  have em : 10 * (m / 10) + m % 10 = m := by omega
  have ed : 10 * (d / 10) + d % 10 = d := by omega
  simp only [ey, em, ed]
  simp [hm1, hm2, hd1, hd2]

lemma parse_date_eq_some {s : String} {dt : Date} (h : parse_date s = some dt) :
    s = renderDate dt ∧ dt.year ≤ 9999 ∧ 1 ≤ dt.month ∧ dt.month ≤ 12 ∧
      1 ≤ dt.day ∧ dt.day ≤ daysInMonth dt.year dt.month := by
  unfold parse_date at h
  split at h
  case _ y1 y2 y3 y4 c1 m1 m2 c2 d1 d2 heq =>
    split at h
    case isFalse => exact absurd h (by simp)
    case isTrue hcond =>
      split at h
      case isFalse => exact absurd h (by simp)
      case isTrue hcond2 =>
        simp only [Bool.and_eq_true, beq_iff_eq] at hcond
        obtain ⟨⟨⟨⟨⟨⟨⟨⟨⟨hy1, hy2⟩, hy3⟩, hy4⟩, hc1⟩, hm1⟩, hm2⟩, hc2⟩, hd1⟩, hd2⟩ := hcond
        simp only [Bool.and_eq_true, decide_eq_true_eq] at hcond2
        obtain ⟨⟨⟨hmlo, hmhi⟩, hdlo⟩, hdhi⟩ := hcond2
        rw [Option.some_inj] at h
        subst h
        subst hc1
        subst hc2
        refine ⟨?_, by
          dsimp only
          have := digitVal_lt_ten hy1
          have := digitVal_lt_ten hy2
          have := digitVal_lt_ten hy3
          have := digitVal_lt_ten hy4
          omega, hmlo, hmhi, hdlo, hdhi⟩
        have hdata : (renderDate ⟨1000 * digitVal y1 + 100 * digitVal y2 + 10 * digitVal y3 +
            digitVal y4, 10 * digitVal m1 + digitVal m2, 10 * digitVal d1 + digitVal d2⟩).data
            = s.data := by
          simp only [renderDate, heq]
          rw [pad4_digits hy1 hy2 hy3 hy4, pad2_digits hm1 hm2, pad2_digits hd1 hd2]
          rfl
        cases s
        cases hdata
        rfl
  case _ => exact absurd h (by simp)

lemma parse_date_time_render {y m d hh mi ss : ℕ} (hy : y ≤ 9999) (hm1 : 1 ≤ m)
    (hm2 : m ≤ 12) (hd1 : 1 ≤ d) (hd2 : d ≤ daysInMonth y m) (hh1 : hh ≤ 23)
    (hi1 : mi ≤ 59) (hs1 : ss ≤ 59) :
    parse_date_time (renderDateTime ⟨y, m, d, hh, mi, ss⟩) = some ⟨y, m, d, hh, mi, ss⟩ := by
  have hdm := daysInMonth_le_31 y m
  have hy1 : y / 1000 < 10 := by omega
  have hy2 : y / 100 % 10 < 10 := by omega
  have hy3 : y / 10 % 10 < 10 := by omega
  have hy4 : y % 10 < 10 := by omega
  have hm1' : m / 10 < 10 := by omega
  have hm2' : m % 10 < 10 := by omega
  have hd1' : d / 10 < 10 := by omega
  have hd2' : d % 10 < 10 := by omega
  have hh1' : hh / 10 < 10 := by omega
  have hh2' : hh % 10 < 10 := by omega
  have hi1' : mi / 10 < 10 := by omega
  have hi2' : mi % 10 < 10 := by omega
  have hs1' : ss / 10 < 10 := by omega
  have hs2' : ss % 10 < 10 := by omega
  simp only [renderDateTime, pad4, pad2, List.cons_append, List.nil_append]
  simp only [parse_date_time]
  simp only [isDigitChar_digitChar hy1, isDigitChar_digitChar hy2, isDigitChar_digitChar hy3,
    isDigitChar_digitChar hy4, isDigitChar_digitChar hm1', isDigitChar_digitChar hm2',
    isDigitChar_digitChar hd1', isDigitChar_digitChar hd2', isDigitChar_digitChar hh1',
    isDigitChar_digitChar hh2', isDigitChar_digitChar hi1', isDigitChar_digitChar hi2',
    isDigitChar_digitChar hs1', isDigitChar_digitChar hs2', Bool.true_and, Bool.and_true,
    beq_self_eq_true]
  simp only [digitVal_digitChar hy1, digitVal_digitChar hy2, digitVal_digitChar hy3,
    digitVal_digitChar hy4, digitVal_digitChar hm1', digitVal_digitChar hm2',
    digitVal_digitChar hd1', digitVal_digitChar hd2', digitVal_digitChar hh1',
    digitVal_digitChar hh2', digitVal_digitChar hi1', digitVal_digitChar hi2',
    digitVal_digitChar hs1', digitVal_digitChar hs2']
  have ey : 1000 * (y / 1000) + 100 * (y / 100 % 10) + 10 * (y / 10 % 10) + y % 10 = y := by
    omega
  have em : 10 * (m / 10) + m % 10 = m := by omega
  have ed : 10 * (d / 10) + d % 10 = d := by omega
  have eh : 10 * (hh / 10) + hh % 10 = hh := by omega
  have ei : 10 * (mi / 10) + mi % 10 = mi := by omega
  have es : 10 * (ss / 10) + ss % 10 = ss := by omega
  simp only [ey, em, ed, eh, ei, es]
  simp [hm1, hm2, hd1, hd2, hh1, hi1, hs1]

lemma parse_date_time_eq_some {s : String} {dt : DateTime}
    (h : parse_date_time s = some dt) :
    s = renderDateTime dt ∧ dt.year ≤ 9999 ∧ 1 ≤ dt.month ∧ dt.month ≤ 12 ∧
      1 ≤ dt.day ∧ dt.day ≤ daysInMonth dt.year dt.month ∧ dt.hour ≤ 23 ∧
      dt.minute ≤ 59 ∧ dt.second ≤ 59 := by
  unfold parse_date_time at h
  split at h
  case _ y1 y2 y3 y4 c1 m1 m2 c2 d1 d2 c3 h1 h2 c4 i1 i2 c5 s1 s2 heq =>
    split at h
    case isFalse => exact absurd h (by simp)
    case isTrue hcond =>
      split at h
      case isFalse => exact absurd h (by simp)
      case isTrue hcond2 =>
        simp only [Bool.and_eq_true, beq_iff_eq] at hcond
        obtain ⟨⟨⟨⟨⟨⟨⟨⟨⟨⟨⟨⟨⟨⟨⟨⟨⟨⟨hy1, hy2⟩, hy3⟩, hy4⟩, hc1⟩, hm1⟩, hm2⟩, hc2⟩, hd1⟩,
          hd2⟩, hc3⟩, hh1⟩, hh2⟩, hc4⟩, hi1⟩, hi2⟩, hc5⟩, hs1⟩, hs2⟩ := hcond
        simp only [Bool.and_eq_true, decide_eq_true_eq] at hcond2
        obtain ⟨⟨⟨⟨⟨⟨hmlo, hmhi⟩, hdlo⟩, hdhi⟩, hhhi⟩, hihi⟩, hshi⟩ := hcond2
        rw [Option.some_inj] at h
        subst h
        subst hc1
        subst hc2
        subst hc3
        subst hc4
        subst hc5
        refine ⟨?_, by
          dsimp only
          have := digitVal_lt_ten hy1
          have := digitVal_lt_ten hy2
          have := digitVal_lt_ten hy3
          have := digitVal_lt_ten hy4
          omega, hmlo, hmhi, hdlo, hdhi, hhhi, hihi, hshi⟩
        have hdata : (renderDateTime ⟨1000 * digitVal y1 + 100 * digitVal y2 +
            10 * digitVal y3 + digitVal y4, 10 * digitVal m1 + digitVal m2,
            10 * digitVal d1 + digitVal d2, 10 * digitVal h1 + digitVal h2,
            10 * digitVal i1 + digitVal i2, 10 * digitVal s1 + digitVal s2⟩).data
            = s.data := by
          simp only [renderDateTime, heq]
          rw [pad4_digits hy1 hy2 hy3 hy4, pad2_digits hm1 hm2, pad2_digits hd1 hd2,
            pad2_digits hh1 hh2, pad2_digits hi1 hi2, pad2_digits hs1 hs2]
          rfl
        cases s
        cases hdata
        rfl
  case _ => exact absurd h (by simp)

/-- The fixed service polling cadence in minutes (`REFRESH_TIME_IN_M`). -/
def REFRESH_TIME_IN_M : ℤ := 15

/-- Granularity of a time series (`TimeUnit`). -/
inductive TimeUnit where
  | QuarterOfAnHour
  | Hour
  | Day
  | Week
  | Month
  | Year
deriving DecidableEq, Repr

/-- Wire token constant `QUARTER_OF_AN_HOUR`. -/
def QUARTER_OF_AN_HOUR : String := "QUARTER_OF_AN_HOUR"

/-- Wire token constant `HOUR`. -/
def HOUR : String := "HOUR"

/-- Wire token constant `DAY`. -/
def DAY : String := "DAY"

/-- Wire token constant `WEEK`. -/
def WEEK : String := "WEEK"

/-- Wire token constant `MONTH`. -/
def MONTH : String := "MONTH"

/-- Wire token constant `YEAR`. -/
def YEAR : String := "YEAR"

/-- `TimeUnit::to_param`: the wire token of a granularity. -/
def TimeUnit.to_param : TimeUnit → String
  | TimeUnit.QuarterOfAnHour => QUARTER_OF_AN_HOUR
  | TimeUnit.Hour => HOUR
  | TimeUnit.Day => DAY
  | TimeUnit.Week => WEEK
  | TimeUnit.Month => MONTH
  | TimeUnit.Year => YEAR

/-- `TimeUnit::from_const`: deserializes a wire token, matching the string
against the six constants; anything else is a serde custom error
(`"Cannot parse value"`), modelled as `Except.error`. -/
def TimeUnit.from_const (s : String) : Except String TimeUnit :=
  if s = QUARTER_OF_AN_HOUR then .ok .QuarterOfAnHour
  else if s = HOUR then .ok .Hour
  else if s = DAY then .ok .Day
  else if s = WEEK then .ok .Week
  else if s = MONTH then .ok .Month
  else if s = YEAR then .ok .Year
  else .error "Cannot parse value"

/-- Raw series entry for energy (`RawGeneratedEnergyValue`): timestamp plus
optional `f64` sample. -/
structure RawGeneratedEnergyValue where
  date : DateTime
  value : Option ℚ
deriving DecidableEq, Repr

/-- Typed series entry for energy (`GeneratedEnergyValue`). -/
structure GeneratedEnergyValue where
  date : DateTime
  value : Option Energy
deriving DecidableEq, Repr

/-- `RawGeneratedEnergyValue::convert`: dispatches on the series unit literal.
Only `"Wh"` is supported; any other literal hits a `todo!` panic in the
source, modelled as `Except.error`. -/
def RawGeneratedEnergyValue.convert (r : RawGeneratedEnergyValue) (unit : String) :
    Except String GeneratedEnergyValue :=
  match unit with
  | "Wh" => .ok ⟨r.date, r.value.map Energy.new_watt_hour⟩
  | _ => .error ("unsupported unit: " ++ unit)

/-- Per-time-unit energy series (`GeneratedEnergy`): granularity, the series
unit literal and the raw entries. -/
structure GeneratedEnergy where
  time_unit : TimeUnit
  unit : String
  raw_values : List RawGeneratedEnergyValue
deriving DecidableEq, Repr

/-- `GeneratedEnergy::values`: converts every raw entry with the series unit
literal (the `todo!` panic on an unsupported literal propagates as an
error). -/
def GeneratedEnergy.values (g : GeneratedEnergy) :
    Except String (List GeneratedEnergyValue) :=
  g.raw_values.mapM (fun raw => raw.convert g.unit)

/-- Raw series entry for power (`RawGeneratedPowerValue`). -/
structure RawGeneratedPowerValue where
  date : DateTime
  value : Option ℚ
deriving DecidableEq, Repr

/-- Typed series entry for power (`GeneratedPowerValue`). -/
structure GeneratedPowerValue where
  date : DateTime
  value : Option Power
deriving DecidableEq, Repr

/-- `RawGeneratedPowerValue::convert`: dispatches on the series unit literal.
Only `"W"` is supported; any other literal hits a `todo!` panic in the
source, modelled as `Except.error`. -/
def RawGeneratedPowerValue.convert (r : RawGeneratedPowerValue) (unit : String) :
    Except String GeneratedPowerValue :=
  match unit with
  | "W" => .ok ⟨r.date, r.value.map Power.new_watt⟩
  | _ => .error ("unsupported unit: " ++ unit)

/-- Per-time-unit power series (`GeneratedPowerPerTimeUnit`). -/
structure GeneratedPowerPerTimeUnit where
  time_unit : TimeUnit
  unit : String
  raw_values : List RawGeneratedPowerValue
deriving DecidableEq, Repr

/-- `GeneratedPowerPerTimeUnit::values`. -/
def GeneratedPowerPerTimeUnit.values (p : GeneratedPowerPerTimeUnit) :
    Except String (List GeneratedPowerValue) :=
  p.raw_values.mapM (fun raw => raw.convert p.unit)

/-- Energy rollup with optional revenue (`TimeData`). -/
structure TimeData where
  energy : Energy
  revenue : Option ℚ
deriving DecidableEq, Repr

/-- Current power wrapper (`GeneratedPower`). -/
structure GeneratedPower where
  power : Power
deriving DecidableEq, Repr

/-- Site overview (`Overview`). -/
structure Overview where
  last_updated_time : DateTime
  life_time_data : TimeData
  last_year_data : TimeData
  last_month_data : TimeData
  last_day_data : TimeData
  current_power : GeneratedPower
  measured_by : String
deriving DecidableEq, Repr

/-- Days since 1970-01-01 of a proleptic-Gregorian date (the timeline on
which `chrono::NaiveDate` lives), via the standard civil-calendar
day-numbering algorithm. -/
def Date.toDays (dt : Date) : ℤ :=
  let y : ℤ := (dt.year : ℤ) - (if dt.month ≤ 2 then 1 else 0)
  let era : ℤ := (if 0 ≤ y then y else y - 399) / 400
  let yoe : ℤ := y - era * 400
  let mp : ℤ := ((dt.month : ℤ) + 9) % 12
  let doy : ℤ := (153 * mp + 2) / 5 + (dt.day : ℤ) - 1
  let doe : ℤ := yoe * 365 + yoe / 4 - yoe / 100 + doy
  era * 146097 + doe - 719468

/-- Seconds since the epoch of a timestamp: the timeline on which
`chrono::NaiveDateTime` plus/minus `chrono::Duration` is plain second
arithmetic. -/
def DateTime.toSecs (dt : DateTime) : ℤ :=
  (Date.toDays ⟨dt.year, dt.month, dt.day⟩) * 86400 +
    (dt.hour : ℤ) * 3600 + (dt.minute : ℤ) * 60 + (dt.second : ℤ)

/-- `Overview::estimated_next_update`, on the seconds timeline. The wall
clock reading `chrono::Local::now().naive_local()` is the explicit `now`
parameter; the returned pair is (next timestamp, remaining duration), both in
seconds. -/
def Overview.estimated_next_update (o : Overview) (now : ℤ) : ℤ × ℤ :=
  let next := o.last_updated_time.toSecs + (REFRESH_TIME_IN_M * 60 + 10)
  (next, next - now)

/-- `parse_power_kw`: field deserializer binding a raw float to a `Power`
assuming the value is in kilowatts. -/
def parse_power_kw (value : ℚ) : Power := Power.new_kilowatt value

/-- `parse_energy_wh`: field deserializer binding a raw float to an `Energy`
assuming the value is in watt-hours. -/
def parse_energy_wh (value : ℚ) : Energy := Energy.new_watt_hour value

/-- Raw wire fields of a `TimeData` object before unit binding. -/
structure TimeDataRaw where
  energy : ℚ
  revenue : Option ℚ
deriving DecidableEq, Repr

/-- Field-wise deserialization of `TimeData`: the `energy` field runs through
`parse_energy_wh` (serde `deserialize_with`). -/
def TimeData.parse (r : TimeDataRaw) : TimeData :=
  ⟨parse_energy_wh r.energy, r.revenue⟩

/-- Raw wire fields of an overview payload before field binding. -/
structure OverviewRaw where
  lastUpdateTime : String
  lifeTimeData : TimeDataRaw
  lastYearData : TimeDataRaw
  lastMonthData : TimeDataRaw
  lastDayData : TimeDataRaw
  currentPower : ℚ
  measuredBy : String
deriving DecidableEq, Repr

/-- Field-wise deserialization of `Overview` as generated by serde:
`lastUpdateTime` through `parse_date_time`, the four rollups through
`parse_energy_wh`, `currentPower.power` through `parse_power_kw`. -/
def Overview.parse (r : OverviewRaw) : Except String Overview :=
  match parse_date_time r.lastUpdateTime with
  | some dt => .ok ⟨dt, TimeData.parse r.lifeTimeData, TimeData.parse r.lastYearData,
      TimeData.parse r.lastMonthData, TimeData.parse r.lastDayData,
      ⟨parse_power_kw r.currentPower⟩, r.measuredBy⟩
  | none => .error "Cannot parse value"

/-- Energy-production period of a site (`DataPeriod`). -/
structure DataPeriod where
  start_date : Date
  end_date : Date
deriving DecidableEq, Repr

/-- `DataPeriod::formatted_date`: renders a date with the `%Y-%m-%d` format. -/
def DataPeriod.formatted_date (date : Date) : String := renderDate date

/-- `DataPeriod::formatted_start_date`. -/
def DataPeriod.formatted_start_date (p : DataPeriod) : String :=
  DataPeriod.formatted_date p.start_date

/-- `DataPeriod::formatted_end_date`. -/
def DataPeriod.formatted_end_date (p : DataPeriod) : String :=
  DataPeriod.formatted_date p.end_date

/-- A string of shape `YYYY-MM-DD`: exactly ten characters, all digits except
single dashes at positions 4 and 7. -/
def isZeroPaddedYMD (s : String) : Bool :=
  match s.data with
  | [a, b, c, d, e, f, g, h, i, j] =>
    isDigitChar a && isDigitChar b && isDigitChar c && isDigitChar d && e == '-' &&
      isDigitChar f && isDigitChar g && h == '-' && isDigitChar i && isDigitChar j
  | _ => false

/-- Transport error (`reqwest::Error`): for classification only the optional
HTTP status code matters. -/
structure ReqwestError where
  status : Option ℕ
deriving DecidableEq, Repr

/-- JSON deserialization error (`serde_json::Error`), kept abstract as its
message. -/
structure SerdeJsonError where
  message : String
deriving DecidableEq, Repr

/-- Error taxonomy of the library (`SolarApiError`). -/
inductive SolarApiError where
  | NetworkError (e : ReqwestError)
  | ApiError (e : ReqwestError)
  | ForbiddenError (e : ReqwestError)
  | ParseError (e : SerdeJsonError)
deriving DecidableEq, Repr

/-- `StatusCode::is_client_error` of the `http` crate: 400–499. -/
def is_client_error (s : ℕ) : Bool := 400 ≤ s && s ≤ 499

/-- `StatusCode::is_server_error` of the `http` crate: 500–599. -/
def is_server_error (s : ℕ) : Bool := 500 ≤ s && s ≤ 599

/-- `impl From<reqwest::Error> for SolarApiError`: classification of a
transport error by its HTTP status. -/
def SolarApiError.from_reqwest_error (error : ReqwestError) : SolarApiError :=
  match error.status with
  | some status =>
    if is_client_error status || is_server_error status then
      if status = 403 then SolarApiError.ForbiddenError error
      else SolarApiError.ApiError error
    else SolarApiError.NetworkError error
  | none => SolarApiError.NetworkError error

/-- `impl From<serde_json::Error> for SolarApiError`, generated by
`#[from]` on the `ParseError` variant. -/
def SolarApiError.from_serde_json_error (error : SerdeJsonError) : SolarApiError :=
  SolarApiError.ParseError error

/-- Rust `String::pop`: drop the final character (no-op on the empty
string). -/
def string_pop (s : String) : String := ⟨s.data.dropLast⟩

/-- `map_to_params`: folds the map entries into `key=value&`-chunks and pops
the trailing `&`. The map is modelled as its iteration sequence (a `HashMap`
iterates in no guaranteed order). Keys and values are concatenated verbatim —
no URL-escaping. -/
def map_to_params (map : List (String × String)) : String :=
  string_pop (map.foldl (fun s kv => s ++ kv.1 ++ "=" ++ kv.2 ++ "&") "")

/-- Location of a site (`Location`). -/
structure Location where
  country : String
  city : String
  address : String
  zip : String
  time_zone : String
  country_code : String
deriving DecidableEq, Repr

/-- Primary module information (`PrimaryModule`). -/
structure PrimaryModule where
  manufacturer_name : String
  model_name : String
  maximum_power : Power
  temperature_coef : ℚ
deriving DecidableEq, Repr

/-- Public visibility setting (`PublicSettings`). -/
structure PublicSettings where
  public : Bool
deriving DecidableEq, Repr

/-- Site metadata record (`Site`). -/
structure Site where
  id : ℕ
  name : String
  account_id : ℕ
  status : String
  peak_power : Power
  last_update_time : Date
  installation_date : Date
  pto_date : Option String
  notes : String
  site_type : String
  location : Location
  primary_module : PrimaryModule
  uris : List (String × String)
  public_settings : PublicSettings
deriving DecidableEq, Repr

/-- Envelope of the sites-list payload (`Sites`): the deserialized `count`
field and the `site` array, with no cross-field validation (serde generates
none). -/
structure Sites where
  _count : ℕ
  site : List Site
deriving DecidableEq, Repr

/-- Reply wrapper of the sites-list endpoint (`SitesReply`). -/
structure SitesReply where
  sites : Sites
deriving DecidableEq, Repr

/-- The pure tail of `lib.rs::list` after transport and JSON decoding: it
returns a clone of `reply.sites()`, i.e. the `site` array of the envelope. -/
def list (reply : SitesReply) : List Site := reply.sites.site

lemma mapM_convert_wh (l : List RawGeneratedEnergyValue) :
    (l.mapM fun raw => raw.convert "Wh") =
      .ok (l.map fun raw => ⟨raw.date, raw.value.map Energy.new_watt_hour⟩) := by
  induction l with
  | nil => rfl
  | cons a t ih => rw [List.mapM_cons, ih]; rfl

lemma mapM_convert_w (l : List RawGeneratedPowerValue) :
    (l.mapM fun raw => raw.convert "W") =
      .ok (l.map fun raw => ⟨raw.date, raw.value.map Power.new_watt⟩) := by
  induction l with
  | nil => rfl
  | cons a t ih => rw [List.mapM_cons, ih]; rfl

/-- Raw chunk concatenation produced by the fold of `map_to_params`: every
entry is followed by a `&`. -/
def raw_join : List (String × String) → String
  | [] => ""
  | kv :: rest => kv.1 ++ "=" ++ kv.2 ++ "&" ++ raw_join rest

/-- The query string as the specification words it: `key=value` pairs joined
by exactly one `&` between consecutive pairs, no trailing `&`, keys and
values verbatim (no URL-escaping). -/
def joined_params : List (String × String) → String
  | [] => ""
  | [kv] => kv.1 ++ "=" ++ kv.2
  | kv :: kv2 :: rest => kv.1 ++ "=" ++ kv.2 ++ "&" ++ joined_params (kv2 :: rest)

lemma foldl_params (l : List (String × String)) (init : String) :
    l.foldl (fun s kv => s ++ kv.1 ++ "=" ++ kv.2 ++ "&") init = init ++ raw_join l := by
  induction l generalizing init with
  | nil =>
    apply String.ext
    simp [raw_join, String.data_append]
  | cons a t ih =>
    rw [List.foldl_cons, ih]
    apply String.ext
    simp [raw_join, String.data_append, List.append_assoc]

lemma raw_join_ne {l : List (String × String)} (h : l ≠ []) :
    raw_join l = joined_params l ++ "&" := by
  induction l with
  | nil => exact absurd rfl h
  | cons a t ih =>
    match t with
    | [] =>
      apply String.ext
      simp [raw_join, joined_params, String.data_append]
    | b :: t2 =>
      rw [raw_join, ih (by simp), joined_params]
      apply String.ext
      simp [String.data_append, List.append_assoc]

lemma map_to_params_eq_joined (l : List (String × String)) :
    map_to_params l = joined_params l := by
  match l with
  | [] => rfl
  | a :: t =>
    rw [map_to_params, foldl_params, raw_join_ne (by simp)]
    apply String.ext
    simp only [string_pop, String.data_append, List.nil_append]
    rw [List.dropLast_concat]

lemma perm_pair {α : Type} [DecidableEq α] {a b : α} {l : List α} (h : l.Perm [a, b]) :
    l = [a, b] ∨ l = [b, a] := by
  have hlen := h.length_eq
  match l, hlen with
  | [x, y], _ =>
    have hx : x = a ∨ x = b := by
      have hm : x ∈ [a, b] := h.mem_iff.mp (by simp)
      simpa using hm
    have hy : y = a ∨ y = b := by
      have hm : y ∈ [a, b] := h.mem_iff.mp (by simp)
      simpa using hm
    rcases hx with hx | hx <;> rcases hy with hy | hy
    · rw [hx, hy] at h ⊢
      have hb : b = a := by
        have hm : b ∈ [a, a] := h.symm.mem_iff.mp (by simp)
        simpa using hm
      rw [hb]
      exact Or.inl rfl
    · rw [hx, hy]
      exact Or.inl rfl
    · rw [hx, hy]
      exact Or.inr rfl
    · rw [hx, hy] at h ⊢
      have ha : a = b := by
        have hm : a ∈ [b, b] := h.symm.mem_iff.mp (by simp)
        simpa using hm
      rw [ha]
      exact Or.inl rfl

lemma isZeroPaddedYMD_renderDate {d : Date} (hy : d.year ≤ 9999) (hm : d.month ≤ 99)
    (hd : d.day ≤ 99) : isZeroPaddedYMD (renderDate d) = true := by
  have hy1 : d.year / 1000 < 10 := by omega
  have hy2 : d.year / 100 % 10 < 10 := by omega
  have hy3 : d.year / 10 % 10 < 10 := by omega
  have hy4 : d.year % 10 < 10 := by omega
  have hm1 : d.month / 10 < 10 := by omega
  have hm2 : d.month % 10 < 10 := by omega
  have hd1 : d.day / 10 < 10 := by omega
  have hd2 : d.day % 10 < 10 := by omega
  simp only [renderDate, pad4, pad2, List.cons_append, List.nil_append, isZeroPaddedYMD]
  simp [isDigitChar_digitChar hy1, isDigitChar_digitChar hy2, isDigitChar_digitChar hy3,
    isDigitChar_digitChar hy4, isDigitChar_digitChar hm1, isDigitChar_digitChar hm2,
    isDigitChar_digitChar hd1, isDigitChar_digitChar hd2]

/-- C1: for an energy series whose unit literal is `"Wh"` and a power series
whose unit literal is `"W"`, `values` succeeds and is exactly the pointwise
image of the raw sequence: output length equals raw length, order is
preserved 1:1 (point `i` keeps the timestamp of raw point `i`), absent raw
samples map to `none` (not zero), and a present sample `x` maps to the
quantity `x` tagged in watt-hours resp. watts. -/
theorem series_values_preserve_shape (g : GeneratedEnergy) (hg : g.unit = "Wh")
    (p : GeneratedPowerPerTimeUnit) (hp : p.unit = "W") :
    g.values = .ok (g.raw_values.map fun raw =>
      ⟨raw.date, raw.value.map Energy.new_watt_hour⟩) ∧
    p.values = .ok (p.raw_values.map fun raw =>
      ⟨raw.date, raw.value.map Power.new_watt⟩) ∧
    (∀ l, g.values = .ok l → l.length = g.raw_values.length ∧
      ∀ i (h1 : i < l.length) (h2 : i < g.raw_values.length),
        l[i].date = g.raw_values[i].date ∧
        (g.raw_values[i].value = none → l[i].value = none) ∧
        (∀ x, g.raw_values[i].value = some x →
          l[i].value = some (Energy.new_watt_hour x))) ∧
    (∀ l, p.values = .ok l → l.length = p.raw_values.length ∧
      ∀ i (h1 : i < l.length) (h2 : i < p.raw_values.length),
        l[i].date = p.raw_values[i].date ∧
        (p.raw_values[i].value = none → l[i].value = none) ∧
        (∀ x, p.raw_values[i].value = some x →
          l[i].value = some (Power.new_watt x))) := by
  have he : g.values = .ok (g.raw_values.map fun raw =>
      ⟨raw.date, raw.value.map Energy.new_watt_hour⟩) := by
    rw [GeneratedEnergy.values, hg, mapM_convert_wh]
  have hw : p.values = .ok (p.raw_values.map fun raw =>
      ⟨raw.date, raw.value.map Power.new_watt⟩) := by
    rw [GeneratedPowerPerTimeUnit.values, hp, mapM_convert_w]
  refine ⟨he, hw, ?_, ?_⟩
  · intro l hl
    rw [he, Except.ok.injEq] at hl
    subst hl
    refine ⟨by simp, ?_⟩
    intro i h1 h2
    refine ⟨by simp, ?_, ?_⟩
    · intro hn
      simp [hn]
    · intro x hx
      simp [hx]
  · intro l hl
    rw [hw, Except.ok.injEq] at hl
    subst hl
    refine ⟨by simp, ?_⟩
    intro i h1 h2
    refine ⟨by simp, ?_, ?_⟩
    · intro hn
      simp [hn]
    · intro x hx
      simp [hx]

/-- Witness for C1: a 3-point energy series with unit `"Wh"` (only index 1
present, with value 222) and a 2-point power series with unit `"W"`. -/
theorem series_values_preserve_shape_witness :
    (⟨TimeUnit.Hour, "Wh",
      [⟨⟨2023, 11, 9, 0, 0, 0⟩, none⟩, ⟨⟨2023, 11, 9, 11, 0, 0⟩, some 222⟩,
        ⟨⟨2023, 11, 9, 12, 0, 0⟩, none⟩]⟩ : GeneratedEnergy).values =
      .ok [⟨⟨2023, 11, 9, 0, 0, 0⟩, none⟩,
        ⟨⟨2023, 11, 9, 11, 0, 0⟩, some (Energy.new_watt_hour 222)⟩,
        ⟨⟨2023, 11, 9, 12, 0, 0⟩, none⟩] ∧
    (⟨TimeUnit.QuarterOfAnHour, "W",
      [⟨⟨2023, 11, 9, 12, 15, 0⟩, some (761538 / 1000)⟩,
        ⟨⟨2023, 11, 9, 12, 30, 0⟩, none⟩]⟩ : GeneratedPowerPerTimeUnit).values =
      .ok [⟨⟨2023, 11, 9, 12, 15, 0⟩, some (Power.new_watt (761538 / 1000))⟩,
        ⟨⟨2023, 11, 9, 12, 30, 0⟩, none⟩] := by
  have h := series_values_preserve_shape
    ⟨TimeUnit.Hour, "Wh",
      [⟨⟨2023, 11, 9, 0, 0, 0⟩, none⟩, ⟨⟨2023, 11, 9, 11, 0, 0⟩, some 222⟩,
        ⟨⟨2023, 11, 9, 12, 0, 0⟩, none⟩]⟩ rfl
    ⟨TimeUnit.QuarterOfAnHour, "W",
      [⟨⟨2023, 11, 9, 12, 15, 0⟩, some (761538 / 1000)⟩,
        ⟨⟨2023, 11, 9, 12, 30, 0⟩, none⟩]⟩ rfl
  exact ⟨h.1, h.2.1⟩

/-- C2: converting a raw series point with a present sample fails with an
unsupported-unit error for every literal other than the single supported one
per kind (`"Wh"` for energy, `"W"` for power) — never a silent zero or
default — while the supported literal succeeds. -/
theorem convert_unsupported_unit_fails (re : RawGeneratedEnergyValue) (xe : ℚ)
    (hve : re.value = some xe) (rp : RawGeneratedPowerValue) (xp : ℚ)
    (hvp : rp.value = some xp) :
    (∀ u, u ≠ "Wh" → re.convert u = .error ("unsupported unit: " ++ u)) ∧
    re.convert "Wh" = .ok ⟨re.date, some (Energy.new_watt_hour xe)⟩ ∧
    (∀ u, u ≠ "W" → rp.convert u = .error ("unsupported unit: " ++ u)) ∧
    rp.convert "W" = .ok ⟨rp.date, some (Power.new_watt xp)⟩ := by
  refine ⟨?_, ?_, ?_, ?_⟩
  · intro u hu
    unfold RawGeneratedEnergyValue.convert
    split
    · exact absurd rfl hu
    · rfl
  · simp [RawGeneratedEnergyValue.convert, hve]
  · intro u hu
    unfold RawGeneratedPowerValue.convert
    split
    · exact absurd rfl hu
    · rfl
  · simp [RawGeneratedPowerValue.convert, hvp]

/-- Witness for C2: the point at 2021-02-01 00:00:00 with value 45718
converts with `"Wh"` and fails with `"XX"`; a power point converts with
`"W"` and fails with `"Wh"`. -/
theorem convert_unsupported_unit_fails_witness :
    (⟨⟨2021, 2, 1, 0, 0, 0⟩, some 45718⟩ : RawGeneratedEnergyValue).convert "XX" =
      .error ("unsupported unit: " ++ "XX") ∧
    (⟨⟨2021, 2, 1, 0, 0, 0⟩, some 45718⟩ : RawGeneratedEnergyValue).convert "Wh" =
      .ok ⟨⟨2021, 2, 1, 0, 0, 0⟩, some (Energy.new_watt_hour 45718)⟩ ∧
    (⟨⟨2023, 11, 9, 12, 15, 0⟩, some 761⟩ : RawGeneratedPowerValue).convert "Wh" =
      .error ("unsupported unit: " ++ "Wh") ∧
    (⟨⟨2023, 11, 9, 12, 15, 0⟩, some 761⟩ : RawGeneratedPowerValue).convert "W" =
      .ok ⟨⟨2023, 11, 9, 12, 15, 0⟩, some (Power.new_watt 761)⟩ := by
  have h := convert_unsupported_unit_fails ⟨⟨2021, 2, 1, 0, 0, 0⟩, some 45718⟩ 45718 rfl
    ⟨⟨2023, 11, 9, 12, 15, 0⟩, some 761⟩ 761 rfl
  exact ⟨h.1 "XX" (by decide), h.2.1, h.2.2.1 "Wh" (by decide), h.2.2.2⟩

/-- C3: `estimated_next_update` returns a pair whose first component is
`last_updated_time` plus exactly 910 seconds (15 minutes plus 10 seconds)
and whose second component is the first component minus the current local
time; when the call happens after the predicted availability time the second
component is negative, not an error. -/
theorem estimated_next_update_spec (o : Overview) (now : ℤ) :
    (o.estimated_next_update now).1 = o.last_updated_time.toSecs + 910 ∧
    (o.estimated_next_update now).2 = (o.estimated_next_update now).1 - now ∧
    (now > (o.estimated_next_update now).1 → (o.estimated_next_update now).2 < 0) := by
  refine ⟨by norm_num [Overview.estimated_next_update, REFRESH_TIME_IN_M], rfl, ?_⟩
  intro hlt
  simp only [Overview.estimated_next_update] at hlt ⊢
  omega

/-- Witness for C3: the overview of the test payload queried 1000 seconds
after its last update, a moment past the predicted availability time, gives
a negative remaining duration. -/
theorem estimated_next_update_spec_witness :
    ((⟨⟨2023, 11, 9, 10, 28, 56⟩, ⟨Energy.new_watt_hour 19191678, none⟩,
      ⟨Energy.new_watt_hour 6143745, none⟩, ⟨Energy.new_watt_hour 38709, none⟩,
      ⟨Energy.new_watt_hour 2028, none⟩, ⟨Power.new_kilowatt (11737279 / 10000)⟩,
      "INVERTER"⟩ : Overview).estimated_next_update
        ((⟨2023, 11, 9, 10, 28, 56⟩ : DateTime).toSecs + 1000)).2 < 0 :=
  (estimated_next_update_spec _ _).2.2 (by decide)

/-- C4: `to_param` and `from_const` form an exact bijection with the six
wire tokens: every variant round-trips, `from_const` succeeds exactly on the
six case-sensitive tokens, and every other string fails with the parse
error. -/
theorem time_unit_round_trip :
    (∀ v : TimeUnit, TimeUnit.from_const v.to_param = .ok v) ∧
    (∀ s : String, (∃ v, TimeUnit.from_const s = .ok v) ↔
      (s = "QUARTER_OF_AN_HOUR" ∨ s = "HOUR" ∨ s = "DAY" ∨ s = "WEEK" ∨
        s = "MONTH" ∨ s = "YEAR")) ∧
    (∀ s : String, ¬(s = "QUARTER_OF_AN_HOUR" ∨ s = "HOUR" ∨ s = "DAY" ∨ s = "WEEK" ∨
        s = "MONTH" ∨ s = "YEAR") →
      TimeUnit.from_const s = .error "Cannot parse value") := by
  refine ⟨?_, ?_, ?_⟩
  · intro v
    cases v <;> rfl
  · intro s
    unfold TimeUnit.from_const
    split_ifs with h1 h2 h3 h4 h5 h6 <;>
      simp_all [QUARTER_OF_AN_HOUR, HOUR, DAY, WEEK, MONTH, YEAR]
  · intro s hs
    unfold TimeUnit.from_const
    split_ifs with h1 h2 h3 h4 h5 h6 <;>
      simp_all [QUARTER_OF_AN_HOUR, HOUR, DAY, WEEK, MONTH, YEAR]

/-- Witness for C4: the unrecognized token `"quarter_of_an_hour"` (wrong
case) fails with the parse error. -/
theorem time_unit_round_trip_witness :
    TimeUnit.from_const "quarter_of_an_hour" = .error "Cannot parse value" :=
  time_unit_round_trip.2.2 "quarter_of_an_hour" (by decide)

/-- C5: `parse_date` succeeds exactly on the strings matching the strict
zero-padded `%Y-%m-%d` rendering of an in-range calendar date, and
`parse_date_time` exactly on the strict `%Y-%m-%d %H:%M:%S` rendering of an
in-range timestamp; `"2021-02-25"` parses to 2021-02-25 while malformed
strings (out-of-range components, extra characters, wrong separators) fail
and no fallback format is attempted. -/
theorem date_parsing_exact :
    (∀ (s : String) (y m d : ℕ), parse_date s = some ⟨y, m, d⟩ ↔
      (s = renderDate ⟨y, m, d⟩ ∧ y ≤ 9999 ∧ 1 ≤ m ∧ m ≤ 12 ∧ 1 ≤ d ∧
        d ≤ daysInMonth y m)) ∧
    (∀ (s : String) (dt : DateTime), parse_date_time s = some dt ↔
      (s = renderDateTime dt ∧ dt.year ≤ 9999 ∧ 1 ≤ dt.month ∧ dt.month ≤ 12 ∧
        1 ≤ dt.day ∧ dt.day ≤ daysInMonth dt.year dt.month ∧ dt.hour ≤ 23 ∧
        dt.minute ≤ 59 ∧ dt.second ≤ 59)) ∧
    parse_date "2021-02-25" = some ⟨2021, 2, 25⟩ ∧
    parse_date "2021-13-40" = none ∧
    parse_date "2021-02-250" = none ∧
    parse_date "2021/02/25" = none ∧
    parse_date_time "2023-11-09 10:28:56" = some ⟨2023, 11, 9, 10, 28, 56⟩ ∧
    parse_date_time "2023-11-09T10:28:56" = none := by
  refine ⟨?_, ?_, by decide, by decide, by decide, by decide, by decide, by decide⟩
  · intro s y m d
    constructor
    · intro h
      exact parse_date_eq_some h
    · rintro ⟨rfl, hy, hm1, hm2, hd1, hd2⟩
      exact parse_date_render hy hm1 hm2 hd1 hd2
  · intro s dt
    constructor
    · intro h
      exact parse_date_time_eq_some h
    · obtain ⟨y, m, d, hh, mi, ss⟩ := dt
      rintro ⟨rfl, hy, hm1, hm2, hd1, hd2, hhh, hih, hsh⟩
      exact parse_date_time_render hy hm1 hm2 hd1 hd2 hhh hih hsh

/-- C6: converting a transport error classifies it by HTTP status — 403
becomes `ForbiddenError`, any other 4xx/5xx becomes `ApiError`, no status
becomes `NetworkError` — and `ParseError` arises only from JSON
deserialization failures, never from the transport conversion. -/
theorem error_classification :
    (∀ e : ReqwestError, e.status = some 403 →
      SolarApiError.from_reqwest_error e = .ForbiddenError e) ∧
    (∀ (e : ReqwestError) (s : ℕ), e.status = some s → s ≠ 403 → 400 ≤ s → s ≤ 599 →
      SolarApiError.from_reqwest_error e = .ApiError e) ∧
    (∀ e : ReqwestError, e.status = none →
      SolarApiError.from_reqwest_error e = .NetworkError e) ∧
    (∀ (e : ReqwestError) (j : SerdeJsonError),
      SolarApiError.from_reqwest_error e ≠ .ParseError j) ∧
    (∀ j : SerdeJsonError, SolarApiError.from_serde_json_error j = .ParseError j) := by
  refine ⟨?_, ?_, ?_, ?_, ?_⟩
  · intro e h
    simp [SolarApiError.from_reqwest_error, h, is_client_error, is_server_error]
  · intro e s h h403 h4 h5
    have hcs : (is_client_error s || is_server_error s) = true := by
      simp only [is_client_error, is_server_error, Bool.or_eq_true, Bool.and_eq_true,
        decide_eq_true_eq]
      omega
    simp [SolarApiError.from_reqwest_error, h, hcs, h403]
  · intro e h
    simp [SolarApiError.from_reqwest_error, h]
  · intro e j
    unfold SolarApiError.from_reqwest_error
    cases e.status with
    | none => simp
    | some s =>
      dsimp only
      split_ifs <;> simp
  · intro j
    rfl

/-- Witness for C6: status 403 gives `ForbiddenError`, status 500 gives
`ApiError`, absent status gives `NetworkError`. -/
theorem error_classification_witness :
    SolarApiError.from_reqwest_error ⟨some 403⟩ = .ForbiddenError ⟨some 403⟩ ∧
    SolarApiError.from_reqwest_error ⟨some 500⟩ = .ApiError ⟨some 500⟩ ∧
    SolarApiError.from_reqwest_error ⟨none⟩ = .NetworkError ⟨none⟩ ∧
    SolarApiError.from_reqwest_error ⟨some 500⟩ ≠ .ParseError ⟨"bad json"⟩ :=
  ⟨error_classification.1 ⟨some 403⟩ rfl,
    error_classification.2.1 ⟨some 500⟩ 500 rfl (by decide) (by decide) (by decide),
    error_classification.2.2.1 ⟨none⟩ rfl,
    error_classification.2.2.2.1 ⟨some 500⟩ ⟨"bad json"⟩⟩

/-- C7: parsing an overview payload binds each numeric field to its fixed
source unit — the four energy rollups (`lifeTimeData`, `lastYearData`,
`lastMonthData`, `lastDayData`) are read as watt-hours and
`currentPower.power` as kilowatts — so life-time energy 1.9191678E7 yields
exactly 1.9191678E7 watt-hours and current power 1173.7279 yields 1173.7279
kilowatts, i.e. 1173727.9 watts in the canonical representation. -/
theorem overview_unit_binding (r : OverviewRaw) (o : Overview)
    (h : Overview.parse r = .ok o) :
    o.life_time_data.energy = Energy.new_watt_hour r.lifeTimeData.energy ∧
    o.last_year_data.energy = Energy.new_watt_hour r.lastYearData.energy ∧
    o.last_month_data.energy = Energy.new_watt_hour r.lastMonthData.energy ∧
    o.last_day_data.energy = Energy.new_watt_hour r.lastDayData.energy ∧
    o.current_power.power = Power.new_kilowatt r.currentPower ∧
    (r.lifeTimeData.energy = 19191678 →
      o.life_time_data.energy.get_watt_hour = 19191678) ∧
    (r.currentPower = 11737279 / 10000 →
      o.current_power.power.get_watt = 11737279 / 10) := by
  unfold Overview.parse at h
  split at h
  case _ dt hdt =>
    rw [Except.ok.injEq] at h
    subst h
    refine ⟨rfl, rfl, rfl, rfl, rfl, ?_, ?_⟩
    · intro hv
      simp [TimeData.parse, parse_energy_wh, Energy.new_watt_hour, Energy.get_watt_hour, hv]
    · intro hv
      simp [parse_power_kw, Power.new_kilowatt, Power.get_watt, hv]
      norm_num
  case _ => exact absurd h (by simp)

/-- Witness for C7: the wire overview of the test payload (life-time energy
1.9191678E7, current power 1173.7279) parses to 1.9191678E7 watt-hours and
1173727.9 watts. -/
theorem overview_unit_binding_witness :
    ∃ o : Overview,
      Overview.parse ⟨"2023-11-09 10:28:56", ⟨19191678, none⟩, ⟨6143745, none⟩,
        ⟨38709, none⟩, ⟨2028, none⟩, 11737279 / 10000, "INVERTER"⟩ = .ok o ∧
      o.life_time_data.energy.get_watt_hour = 19191678 ∧
      o.current_power.power.get_watt = 11737279 / 10 := by
  have h := overview_unit_binding
    ⟨"2023-11-09 10:28:56", ⟨19191678, none⟩, ⟨6143745, none⟩, ⟨38709, none⟩,
      ⟨2028, none⟩, 11737279 / 10000, "INVERTER"⟩
    ⟨⟨2023, 11, 9, 10, 28, 56⟩, ⟨Energy.new_watt_hour 19191678, none⟩,
      ⟨Energy.new_watt_hour 6143745, none⟩, ⟨Energy.new_watt_hour 38709, none⟩,
      ⟨Energy.new_watt_hour 2028, none⟩, ⟨Power.new_kilowatt (11737279 / 10000)⟩,
      "INVERTER"⟩ rfl
  exact ⟨_, rfl, h.2.2.2.2.2.1 rfl, h.2.2.2.2.2.2 rfl⟩

/-- C8: for every non-empty mapping, `map_to_params` is the `key=value`
pairs joined by exactly one `&` between consecutive pairs, with no trailing
`&` and no URL-escaping of keys or values; for a two-entry map (whichever
iteration order the `HashMap` presents) the result is one of the two
orderings. -/
theorem map_to_params_spec :
    (∀ map : List (String × String), map ≠ [] →
      map_to_params map = joined_params map) ∧
    (∀ (k1 v1 k2 v2 : String) (map : List (String × String)),
      map.Perm [(k1, v1), (k2, v2)] →
      map_to_params map = k1 ++ "=" ++ v1 ++ "&" ++ k2 ++ "=" ++ v2 ∨
      map_to_params map = k2 ++ "=" ++ v2 ++ "&" ++ k1 ++ "=" ++ v1) := by
  refine ⟨fun map _ => map_to_params_eq_joined map, ?_⟩
  intro k1 v1 k2 v2 map hperm
  rcases perm_pair hperm with rfl | rfl
  · left
    rw [map_to_params_eq_joined]
    apply String.ext
    simp [joined_params, String.data_append, List.append_assoc]
  · right
    rw [map_to_params_eq_joined]
    apply String.ext
    simp [joined_params, String.data_append, List.append_assoc]

/-- Witness for C8: the two-entry map of the source's own test, in one
iteration order. -/
theorem map_to_params_spec_witness :
    map_to_params [("key", "value")] = joined_params [("key", "value")] ∧
    (map_to_params [("key", "value"), ("key2", "value2")] = "key=value&key2=value2" ∨
      map_to_params [("key", "value"), ("key2", "value2")] = "key2=value2&key=value") := by
  refine ⟨map_to_params_spec.1 [("key", "value")] (by decide), ?_⟩
  rcases map_to_params_spec.2 "key" "value" "key2" "value2"
    [("key", "value"), ("key2", "value2")] (List.Perm.refl _) with h | h
  · left
    rw [h]
    decide
  · right
    rw [h]
    decide

/-- C9: no operation on a `DataPeriod` validates or rejects the range — the
formatted accessors are total, applying to inverted and equal ranges alike —
and both always return the zero-padded `YYYY-MM-DD` rendering of their
date. -/
theorem data_period_formatting (p : DataPeriod)
    (h1 : p.start_date.year ≤ 9999) (h2 : p.start_date.month ≤ 99)
    (h3 : p.start_date.day ≤ 99) (h4 : p.end_date.year ≤ 9999)
    (h5 : p.end_date.month ≤ 99) (h6 : p.end_date.day ≤ 99) :
    p.formatted_start_date = renderDate p.start_date ∧
    p.formatted_end_date = renderDate p.end_date ∧
    isZeroPaddedYMD p.formatted_start_date = true ∧
    isZeroPaddedYMD p.formatted_end_date = true :=
  ⟨rfl, rfl, isZeroPaddedYMD_renderDate h1 h2 h3, isZeroPaddedYMD_renderDate h4 h5 h6⟩

/-- Witness for C9: an inverted period (start 2021-05-03 after end
2021-02-25) is formatted without any validation, zero-padded. -/
theorem data_period_formatting_witness :
    (⟨⟨2021, 5, 3⟩, ⟨2021, 2, 25⟩⟩ : DataPeriod).formatted_start_date = "2021-05-03" ∧
    (⟨⟨2021, 5, 3⟩, ⟨2021, 2, 25⟩⟩ : DataPeriod).formatted_end_date = "2021-02-25" ∧
    isZeroPaddedYMD (⟨⟨2021, 5, 3⟩, ⟨2021, 2, 25⟩⟩ : DataPeriod).formatted_start_date
      = true := by
  have h := data_period_formatting ⟨⟨2021, 5, 3⟩, ⟨2021, 2, 25⟩⟩ (by decide) (by decide)
    (by decide) (by decide) (by decide) (by decide)
  refine ⟨?_, ?_, h.2.2.1⟩
  · rw [h.1]
    decide
  · rw [h.2.1]
    decide

/-- Example site record mirroring the payload of the source's own
sites-list test. -/
def exampleSite : Site :=
  ⟨1234123, "MySiteName", 123456, "Active", Power.new_kilowatt (741 / 100),
    ⟨2021, 4, 29⟩, ⟨2021, 2, 25⟩, none, "", "Optimizers and Inverters",
    ⟨"Netherlands", "A city", "Some address", "zipy", "Europe/Amsterdam", "NL"⟩,
    ⟨"JinkoSolar", "390", Power.new_kilowatt 0, 0⟩,
    [("DETAILS", "/site/1234123/details")], ⟨false⟩⟩

/-- C10: the sites list returned by `list` is exactly the entries of the
`site` array in response order; the deserialized `count` field is never
compared against the array length, so a payload whose count disagrees with
the number of entries still parses and the result length follows the
array. -/
theorem sites_list_follows_array (c : ℕ) (sites : List Site)
    (_h : c ≠ sites.length) :
    list ⟨⟨c, sites⟩⟩ = sites ∧ (list ⟨⟨c, sites⟩⟩).length = sites.length :=
  ⟨rfl, rfl⟩

/-- Witness for C10: a payload declaring `count = 2` over a one-element
`site` array still yields exactly that one site. -/
theorem sites_list_follows_array_witness :
    list ⟨⟨2, [exampleSite]⟩⟩ = [exampleSite] ∧
    (list ⟨⟨2, [exampleSite]⟩⟩).length = 1 := by
  have h := sites_list_follows_array 2 [exampleSite] (by decide)
  exact ⟨h.1, h.2⟩

end SolarApi
